import Mathlib

/-!
Verification of the data-access layer of Rust-CMS (src/models/mod.rs and
src/models/page_models.rs), shallowly embedded in Lean 4.

The `pages` table is embedded as a list of `Page` rows inside a `DB` state;
each Diesel query built by the source is translated to its relational
semantics over that state.  The backend clock (MySQL fills `time_created`
on insert) and backend reachability are passed as explicit parameters.
`NaiveDateTime` is embedded as `Nat` ticks.

The schema crate (`crate::schema`), the `Module` model, `LocalConfig` and
`CustomHttpError` are declared outside the provided sources; they are
modelled from the spec where noted.
-/

namespace RustCms

/-- Translation of `Page` (page_models.rs lines 14-22): `page_name` is the
primary key of the `pages` table (the schema crate is not in the sources;
the spec declares `page_name (PK)`), `time_created` is backend-assigned. -/
structure Page where
  page_name : String
  page_url : String
  page_title : String
  time_created : Nat
deriving DecidableEq, Repr

/-- Translation of `MutPage` (page_models.rs lines 25-31): the insertable
and changeset payload, with no `time_created` field. -/
structure MutPage where
  page_name : String
  page_url : String
  page_title : String
deriving DecidableEq, Repr

/-- Modelled from the spec: the `Module` model lives in the missing
`module_models.rs`; the spec treats it as an opaque record with a `title`
distinguishing attribute and a foreign key into `Page` (`page_name`),
plus opaque content. -/
structure Module where
  title : String
  page_name : String
  content : String
deriving DecidableEq, Repr

/-- The relational store backing the queries: the `pages` and `modules`
tables, each a sequence of rows. -/
structure DB where
  pages : List Page
  modules : List Module
deriving DecidableEq, Repr

/-- Translation of `diesel::result::Error` at the granularity the sources
use: `first` yields `Error::NotFound` on zero rows; every other backend
failure is one opaque variant. -/
inductive DieselError where
  | NotFound
  | DatabaseError
deriving DecidableEq, Repr

/-- Translation of `Page::create` (page_models.rs lines 50-54):
`insert_or_ignore_into(pages::table).values(new_page).execute(db)` is
MySQL `INSERT IGNORE`: if a row with the same primary key `page_name`
already exists the insert is skipped and 0 rows are reported, otherwise
the row is appended with `time_created` filled by the backend clock. -/
def Page.create (new_page : MutPage) (now : Nat) (db : DB) :
    Except DieselError Nat × DB :=
  if db.pages.any (fun p => p.page_name == new_page.page_name) then
    (.ok 0, db)
  else
    (.ok 1, { db with pages := db.pages ++
      [⟨new_page.page_name, new_page.page_url, new_page.page_title, now⟩] })

/-- Translation of `Page::read_one` (page_models.rs lines 56-61):
`pages.filter(page_name.eq(id)).first::<Self>(db)` returns the first row
matching the filter, or `Error::NotFound` when no row matches. -/
def Page.read_one (id : String) (db : DB) : Except DieselError Page :=
  match db.pages.find? (fun p => p.page_name == id) with
  | some p => .ok p
  | none => .error .NotFound

/-- Translation of `Page::read_all` (page_models.rs lines 63-65):
`pages::table.load::<Self>(db)` returns every row of the table. -/
def Page.read_all (db : DB) : Except DieselError (List Page) :=
  .ok db.pages

/-- The changeset generated by `#[derive(AsChangeset)]` on `MutPage`
(page_models.rs line 25): per Diesel's derive semantics the column that is
the table's primary key (`page_name`) is skipped, so only `page_url` and
`page_title` are set; `time_created` is not a field of `MutPage`. -/
def MutPage.applyChangeset (new_page : MutPage) (p : Page) : Page :=
  { p with page_url := new_page.page_url, page_title := new_page.page_title }

/-- Translation of `Page::update` (page_models.rs lines 67-78):
`update(pages.filter(page_name.eq(id))).set(new_page).execute(db)`
applies the `MutPage` changeset to every row matching the filter and
reports the number of matched rows (zero when no row matches, no error). -/
def Page.update (id : String) (new_page : MutPage) (db : DB) :
    Except DieselError Nat × DB :=
  (.ok (db.pages.countP (fun p => p.page_name == id)),
   { db with
     pages := db.pages.map fun p =>
       if p.page_name == id then new_page.applyChangeset p else p })

/-- Translation of `Page::delete` (page_models.rs lines 80-85):
`delete(pages.filter(page_name.eq(id))).execute(db)` removes every row
matching the filter and reports how many were removed (zero when no row
matches, no error). -/
def Page.delete (id : String) (db : DB) : Except DieselError Nat × DB :=
  (.ok (db.pages.countP (fun p => p.page_name == id)),
   { db with pages := db.pages.filter (fun p => !(p.page_name == id)) })

/-- Translation of `Page::read_one_join_on` (page_models.rs lines 90-102):
`pages.inner_join(modules).filter(page_name.eq(id)).load::<(Page, Module)>`.
The inner join pairs each page row with each module row related through the
declared association (the `joinable!` declaration lives in the missing
schema crate; the spec declares the foreign key on `Module` referencing
`Page`'s primary key), then the filter keeps the pairs whose page has the
requested `page_name`. -/
def Page.read_one_join_on (id : String) (db : DB) :
    Except DieselError (List (Page × Module)) :=
  .ok ((db.pages.flatMap fun p =>
          (db.modules.filter (fun m => m.page_name == p.page_name)).map
            (fun m => (p, m))).filter
        (fun pm => pm.1.page_name == id))

/-- Modelled from the spec: `LocalConfig` is declared in the excluded
config controller; the spec gives its five fields
`{mysql_username, mysql_password, mysql_url, mysql_port, mysql_database}`,
each a configuration string consumed by `format_connection_string`. -/
structure LocalConfig where
  mysql_username : String
  mysql_password : String
  mysql_url : String
  mysql_port : String
  mysql_database : String
deriving DecidableEq, Repr

/-- Translation of `format_connection_string` (mod.rs lines 40-49):
`format!("mysql://{}:{}@{}:{}/{}", ...)` over the five config fields. -/
def format_connection_string (conf : LocalConfig) : String :=
  s!"mysql://{conf.mysql_username}:{conf.mysql_password}@{conf.mysql_url}:{conf.mysql_port}/{conf.mysql_database}"

/-- Translation of `ConnectionManager::<MysqlConnection>::new(db_url)`:
an r2d2 manager holding the connection URI. -/
structure ConnectionManager where
  db_url : String
deriving DecidableEq, Repr

/-- Translation of `r2d2::PoolError` at the granularity the sources use:
one opaque construction-failure value. -/
inductive PoolError where
  | connectionError
deriving DecidableEq, Repr

/-- The pool state: `MySQLPool = Pool<ConnectionManager<MysqlConnection>>`
(mod.rs line 10), with its configured bound `max_size` and the number of
currently checked-out connections `in_use`. -/
structure MySQLPool where
  manager : ConnectionManager
  max_size : Nat
  in_use : Nat
deriving DecidableEq, Repr

/-- Translation of `MySQLPooledConnection` (mod.rs line 11): a connection
checked out of the pool. -/
structure MySQLPooledConnection where
  manager : ConnectionManager
deriving DecidableEq, Repr

/-- Translation of `init_connection` (mod.rs lines 57-59). -/
def init_connection (db_url : String) : ConnectionManager :=
  ⟨db_url⟩

/-- Translation of `init_pool` (mod.rs lines 62-65):
`Pool::builder().max_size(2).build(manager)`.  Whether `build` succeeds
depends on the external backend, passed as the oracle `backendReachable`
(per the spec, construction fails with `PoolError` when the backend is
unreachable); on success the pool is bound to 2 connections with none
checked out. -/
def init_pool (db_url : String) (backendReachable : Bool) :
    Except PoolError MySQLPool :=
  let manager := init_connection db_url
  if backendReachable then .ok ⟨manager, 2, 0⟩ else .error .connectionError

/-- The outcome of a computation that may `panic!`/`expect`: Rust's
`Result::expect` aborts the process with a message instead of returning. -/
inductive PanicOr (α : Type) where
  | panicked : String → PanicOr α
  | ok : α → PanicOr α
deriving DecidableEq, Repr

/-- Translation of Rust's `Result::expect(msg)`: unwraps an `Ok` and
panics with `msg` on an `Err`. -/
def expectRes {α : Type} (r : Except PoolError α) (msg : String) : PanicOr α :=
  match r with
  | .ok a => .ok a
  | .error _ => .panicked msg

/-- Translation of `establish_database_connection` (mod.rs lines 51-55):
`Some(init_pool(&db_url).expect("Failed to create pool."))`. -/
def establish_database_connection (conf : LocalConfig)
    (backendReachable : Bool) : PanicOr (Option MySQLPool) :=
  let db_url := format_connection_string conf
  match expectRes (init_pool db_url backendReachable) "Failed to create pool." with
  | .ok p => .ok (some p)
  | .panicked m => .panicked m

/-- The ways r2d2's `Pool::get` can fail to supply a connection, per the
spec: pool exhaustion (every slot checked out until the wait times out),
backend failure, or timeout. -/
inductive GetFailure where
  | exhaustion
  | backendFailure
  | timeout
deriving DecidableEq, Repr

/-- Modelled from the spec: r2d2's `Pool::get` (library code, not in the
sources) hands out a connection when a slot is free and the backend
cooperates, and otherwise fails with one of the `GetFailure` causes; the
external backend/timing behaviour is the oracle `fault`. -/
def MySQLPool.get (pool : MySQLPool) (fault : Option GetFailure) :
    Except GetFailure MySQLPooledConnection × MySQLPool :=
  match fault with
  | some f => (.error f, pool)
  | none =>
    if pool.in_use < pool.max_size then
      (.ok ⟨pool.manager⟩, { pool with in_use := pool.in_use + 1 })
    else
      (.error .exhaustion, pool)

/-- Translation of `CustomHttpError` from the excluded errors middleware:
the sources name only `CustomHttpError::Unknown`; the spec calls it the
single generic "unknown" kind among the middleware's error kinds. -/
inductive CustomHttpError where
  | Unknown
  | NotFound
  | BadRequest
deriving DecidableEq, Repr

/-- Translation of `pool_handler` (mod.rs lines 67-69):
`pool.get().or(Err(CustomHttpError::Unknown))` — every checkout failure is
collapsed into `CustomHttpError::Unknown`. -/
def pool_handler (pool : MySQLPool) (fault : Option GetFailure) :
    Except CustomHttpError MySQLPooledConnection × MySQLPool :=
  match MySQLPool.get pool fault with
  | (.ok c, p) => (.ok c, p)
  | (.error _, p) => (.error .Unknown, p)

/-- C7: `format_connection_string` deterministically builds the URI
"mysql://<username>:<password>@<url>:<port>/<database>" from exactly the
five config fields; equal configs yield equal strings. -/
theorem format_connection_string_deterministic_uri
    (conf conf2 : LocalConfig) (h : conf = conf2) :
    format_connection_string conf =
      "mysql://" ++ conf.mysql_username ++ ":" ++ conf.mysql_password ++ "@" ++
        conf.mysql_url ++ ":" ++ conf.mysql_port ++ "/" ++ conf.mysql_database ∧
    format_connection_string conf = format_connection_string conf2 := by
  subst h
  refine ⟨?_, rfl⟩
  show "mysql://" ++ conf.mysql_username ++ ":" ++ conf.mysql_password ++ "@" ++
      conf.mysql_url ++ ":" ++ conf.mysql_port ++ "/" ++ conf.mysql_database ++ "" = _
  rw [String.append_empty]

/-- Witness for C7 at a concrete configuration. -/
theorem format_connection_string_deterministic_uri_witness :
    format_connection_string ⟨"user", "pw", "localhost", "3306", "cms"⟩ =
      "mysql://user:pw@localhost:3306/cms" := by
  have h := format_connection_string_deterministic_uri
    ⟨"user", "pw", "localhost", "3306", "cms"⟩
    ⟨"user", "pw", "localhost", "3306", "cms"⟩ rfl
  exact h.1.trans rfl

/-- C10: since no field content is escaped, `format_connection_string` is
not injective: two distinct configurations that split an '@' between the
password and host fields differently produce the identical URI. -/
theorem format_connection_string_not_injective :
    ∃ c1 c2 : LocalConfig, c1 ≠ c2 ∧
      format_connection_string c1 = format_connection_string c2 :=
  ⟨⟨"u", "a@b", "c", "5", "d"⟩, ⟨"u", "a", "b@c", "5", "d"⟩, by decide, rfl⟩

/-- C8: a pool constructed by `init_pool` is bounded to `max_size = 2`
(with nothing checked out), regardless of the URI, and a checkout through
`pool_handler` neither changes the bound nor pushes the number of
checked-out connections past it. -/
theorem init_pool_bounded
    (db_url : String) (backendReachable : Bool) (p pool : MySQLPool)
    (fault : Option GetFailure)
    (h : init_pool db_url backendReachable = .ok p)
    (hmax : pool.max_size = 2) (hle : pool.in_use ≤ 2) :
    p.max_size = 2 ∧ p.in_use = 0 ∧
    (pool_handler pool fault).2.max_size = 2 ∧
    (pool_handler pool fault).2.in_use ≤ 2 := by
  cases backendReachable with
  | false => simp [init_pool] at h
  | true =>
    simp only [init_pool, if_pos] at h
    cases h
    refine ⟨rfl, rfl, ?_⟩
    cases fault with
    | some f =>
      simp only [pool_handler, MySQLPool.get]
      exact ⟨hmax, hle⟩
    | none =>
      by_cases hlt : pool.in_use < pool.max_size
      · simp only [pool_handler, MySQLPool.get, if_pos hlt]
        exact ⟨hmax, by omega⟩
      · simp only [pool_handler, MySQLPool.get, if_neg hlt]
        exact ⟨hmax, hle⟩

/-- Witness for C8: a fresh pool and a pool with one connection out. -/
theorem init_pool_bounded_witness :
    (⟨⟨"mysql://u:p@h:3306/d"⟩, 2, 0⟩ : MySQLPool).max_size = 2 ∧
    (⟨⟨"mysql://u:p@h:3306/d"⟩, 2, 0⟩ : MySQLPool).in_use = 0 ∧
    (pool_handler ⟨⟨"h"⟩, 2, 1⟩ none).2.max_size = 2 ∧
    (pool_handler ⟨⟨"h"⟩, 2, 1⟩ none).2.in_use ≤ 2 :=
  init_pool_bounded "mysql://u:p@h:3306/d" true
    ⟨⟨"mysql://u:p@h:3306/d"⟩, 2, 0⟩ ⟨⟨"h"⟩, 2, 1⟩ none rfl rfl (by decide)

/-- C9: whenever the pool cannot supply a connection, whatever the cause
(exhaustion, backend failure or timeout), `pool_handler` returns the one
generic `CustomHttpError::Unknown`, discarding the cause. -/
theorem pool_checkout_failure_collapsed
    (pool : MySQLPool) (fault : Option GetFailure) (f : GetFailure)
    (h : (MySQLPool.get pool fault).1 = .error f) :
    (pool_handler pool fault).1 = .error CustomHttpError.Unknown := by
  unfold pool_handler
  rcases hg : MySQLPool.get pool fault with ⟨r, q⟩
  rw [hg] at h
  cases r with
  | ok c => simp at h
  | error e => simp

/-- Witness for C9: checkout from an exhausted pool. -/
theorem pool_checkout_failure_collapsed_witness :
    (pool_handler ⟨⟨"h"⟩, 2, 2⟩ none).1 = .error CustomHttpError.Unknown :=
  pool_checkout_failure_collapsed ⟨⟨"h"⟩, 2, 2⟩ none .exhaustion rfl

/-- C6 counterexample: `establish_database_connection` does not return a
typed error when pool construction fails — it panics (the source calls
`.expect("Failed to create pool.")`), refuting the claim that every
failure path of the pool functions returns a typed error value. -/
theorem establish_database_connection_panics_on_pool_failure :
    establish_database_connection ⟨"u", "p", "h", "3306", "db"⟩ false =
      .panicked "Failed to create pool." := rfl

/-- C6 amended: every failure path of `pool_handler`, `init_pool` and the
CRUD/join operations returns a typed error value (never a panic), with the
one exception of `establish_database_connection`, which panics exactly
when pool construction fails at startup. -/
theorem failure_paths_typed_except_establish :
    (∀ (pool : MySQLPool) (fault : Option GetFailure),
        (pool_handler pool fault).1 = .error CustomHttpError.Unknown ∨
        ∃ c, (pool_handler pool fault).1 = .ok c) ∧
    (∀ (db_url : String) (b : Bool),
        init_pool db_url b = .error PoolError.connectionError ∨
        ∃ p, init_pool db_url b = .ok p) ∧
    (∀ (id : String) (db : DB),
        Page.read_one id db = .error DieselError.NotFound ∨
        ∃ p, Page.read_one id db = .ok p) ∧
    (∀ (new_page : MutPage) (now : Nat) (db : DB), ∃ n,
        (Page.create new_page now db).1 = .ok n) ∧
    (∀ (id : String) (new_page : MutPage) (db : DB), ∃ n,
        (Page.update id new_page db).1 = .ok n) ∧
    (∀ (id : String) (db : DB), ∃ n, (Page.delete id db).1 = .ok n) ∧
    (∀ (id : String) (db : DB), ∃ l, Page.read_one_join_on id db = .ok l) ∧
    (∀ (conf : LocalConfig) (b : Bool),
        establish_database_connection conf b =
          .panicked "Failed to create pool." ↔ b = false) := by
  refine ⟨?_, ?_, ?_, ?_, ?_, ?_, ?_, ?_⟩
  · intro pool fault
    unfold pool_handler
    rcases hg : MySQLPool.get pool fault with ⟨r, q⟩
    cases r with
    | ok c => exact Or.inr ⟨c, rfl⟩
    | error e => exact Or.inl rfl
  · intro db_url b
    cases b with
    | false => exact Or.inl rfl
    | true => exact Or.inr ⟨_, rfl⟩
  · intro id db
    rcases hf : db.pages.find? (fun p => p.page_name == id) with _ | p
    · exact Or.inl (by unfold Page.read_one; rw [hf])
    · exact Or.inr ⟨p, by unfold Page.read_one; rw [hf]⟩
  · intro new_page now db
    unfold Page.create
    split
    · exact ⟨0, rfl⟩
    · exact ⟨1, rfl⟩
  · intro id new_page db
    exact ⟨_, rfl⟩
  · intro id db
    exact ⟨_, rfl⟩
  · intro id db
    exact ⟨_, rfl⟩
  · intro conf b
    cases b <;>
      simp [establish_database_connection, expectRes, init_pool, init_connection]

/-- The row function applied by `Page.update` preserves `page_name`
(Diesel's changeset skips the primary-key column). -/
lemma update_row_page_name (id : String) (np : MutPage) (q : Page) :
    (if q.page_name == id then np.applyChangeset q else q).page_name =
      q.page_name := by
  unfold MutPage.applyChangeset
  split <;> rfl

/-- The row function applied by `Page.update` preserves `time_created`
(`MutPage` has no `time_created` field). -/
lemma update_row_time_created (id : String) (np : MutPage) (q : Page) :
    (if q.page_name == id then np.applyChangeset q else q).time_created =
      q.time_created := by
  unfold MutPage.applyChangeset
  split <;> rfl

/-- C1: for a `MutPage` payload whose `page_name` is fresh, `create`
reports one inserted row, `read_one` of that name returns the payload's
writable fields with `time_created` filled by the backend, and any later
`update` leaves that record's `time_created` (and `page_name`) intact. -/
theorem create_then_read_one (p : MutPage) (db : DB) (now : Nat)
    (fresh : ∀ q ∈ db.pages, q.page_name ≠ p.page_name) :
    (Page.create p now db).1 = .ok 1 ∧
    Page.read_one p.page_name (Page.create p now db).2 =
      .ok ⟨p.page_name, p.page_url, p.page_title, now⟩ ∧
    ∀ (id : String) (p2 : MutPage), ∃ u t,
      Page.read_one p.page_name
          (Page.update id p2 (Page.create p now db).2).2 =
        .ok ⟨p.page_name, u, t, now⟩ := by
  have hany : db.pages.any (fun q => q.page_name == p.page_name) = false := by
    rw [List.any_eq_false]
    intro q hq
    simpa using fresh q hq
  have hcreate : Page.create p now db =
      (.ok 1, { db with pages := db.pages ++
        [⟨p.page_name, p.page_url, p.page_title, now⟩] }) := by
    simp [Page.create, hany]
  have hprefix : db.pages.find? (fun q => q.page_name == p.page_name) = none := by
    rw [List.find?_eq_none]
    intro q hq
    simpa using fresh q hq
  refine ⟨by rw [hcreate], ?_, ?_⟩
  · rw [hcreate]
    unfold Page.read_one
    rw [List.find?_append, hprefix]
    simp
  · intro id p2
    rw [hcreate]
    unfold Page.update Page.read_one
    simp only [List.map_append]
    rw [List.find?_append]
    have h1 : ((db.pages.map fun q =>
        if q.page_name == id then p2.applyChangeset q else q).find?
          (fun q => q.page_name == p.page_name)) = none := by
      rw [List.find?_eq_none]
      intro x hx
      rcases List.mem_map.mp hx with ⟨q, hq, rfl⟩
      rw [update_row_page_name]
      simpa using fresh q hq
    rw [h1]
    by_cases hid : p.page_name = id
    · exact ⟨p2.page_url, p2.page_title, by simp [hid, MutPage.applyChangeset]⟩
    · exact ⟨p.page_url, p.page_title, by simp [hid]⟩

/-- Witness for C1 on an empty store. -/
theorem create_then_read_one_witness :
    (Page.create ⟨"home", "/", "Home"⟩ 7 ⟨[], []⟩).1 = .ok 1 ∧
    Page.read_one "home" (Page.create ⟨"home", "/", "Home"⟩ 7 ⟨[], []⟩).2 =
      .ok ⟨"home", "/", "Home", 7⟩ ∧
    ∀ (id : String) (p2 : MutPage), ∃ u t,
      Page.read_one "home"
          (Page.update id p2 (Page.create ⟨"home", "/", "Home"⟩ 7 ⟨[], []⟩).2).2 =
        .ok ⟨"home", u, t, 7⟩ :=
  create_then_read_one ⟨"home", "/", "Home"⟩ ⟨[], []⟩ 7 (by simp)

/-- C2: when a record with the payload's `page_name` already exists,
`create` returns `Ok` with zero rows affected and leaves the store
untouched (insert-or-ignore, not upsert). -/
theorem create_idempotent_on_collision (p : MutPage) (db : DB) (now : Nat)
    (hex : ∃ q ∈ db.pages, q.page_name = p.page_name) :
    (Page.create p now db).1 = .ok 0 ∧ (Page.create p now db).2 = db := by
  obtain ⟨q, hq, hname⟩ := hex
  have hany : db.pages.any (fun r => r.page_name == p.page_name) = true :=
    List.any_eq_true.mpr ⟨q, hq, by simp [hname]⟩
  constructor <;> simp [Page.create, hany]

/-- Witness for C2: a second `create` of the same payload. -/
theorem create_idempotent_on_collision_witness :
    (Page.create ⟨"home", "/x", "X"⟩ 9
        ⟨[⟨"home", "/", "Home", 7⟩], []⟩).1 = .ok 0 ∧
    (Page.create ⟨"home", "/x", "X"⟩ 9
        ⟨[⟨"home", "/", "Home", 7⟩], []⟩).2 =
      ⟨[⟨"home", "/", "Home", 7⟩], []⟩ :=
  create_idempotent_on_collision ⟨"home", "/x", "X"⟩
    ⟨[⟨"home", "/", "Home", 7⟩], []⟩ 9 ⟨⟨"home", "/", "Home", 7⟩, by simp, rfl⟩

/-- C3: with no record matching the id, `read_one` fails with the
dedicated no-rows error while `update` and `delete` return `Ok` with a
zero row count and leave the store unchanged. -/
theorem not_found_signaling_asymmetry (id : String) (db : DB)
    (habs : ∀ q ∈ db.pages, q.page_name ≠ id) :
    Page.read_one id db = .error DieselError.NotFound ∧
    (∀ p2 : MutPage, Page.update id p2 db = (.ok 0, db)) ∧
    Page.delete id db = (.ok 0, db) := by
  have hfind : db.pages.find? (fun q => q.page_name == id) = none := by
    rw [List.find?_eq_none]
    intro q hq
    simpa using habs q hq
  have hcount : db.pages.countP (fun q => q.page_name == id) = 0 := by
    rw [List.countP_eq_zero]
    intro q hq
    simpa using habs q hq
  refine ⟨by unfold Page.read_one; rw [hfind], ?_, ?_⟩
  · intro p2
    unfold Page.update
    rw [hcount]
    have hmap : (db.pages.map fun q =>
        if q.page_name == id then p2.applyChangeset q else q) = db.pages := by
      have hcongr : (db.pages.map fun q =>
          if q.page_name == id then p2.applyChangeset q else q) =
            db.pages.map (fun q => q) := by
        apply List.map_congr_left
        intro q hq
        simp [habs q hq]
      rw [hcongr, List.map_id']
    rw [hmap]
  · unfold Page.delete
    rw [hcount]
    have hfilter : db.pages.filter (fun q => !(q.page_name == id)) = db.pages := by
      rw [List.filter_eq_self]
      intro q hq
      simpa using habs q hq
    rw [hfilter]

/-- Witness for C3 at a store not containing the id. -/
theorem not_found_signaling_asymmetry_witness :
    Page.read_one "about" ⟨[⟨"home", "/", "Home", 7⟩], []⟩ =
      .error DieselError.NotFound ∧
    (∀ p2 : MutPage, Page.update "about" p2 ⟨[⟨"home", "/", "Home", 7⟩], []⟩ =
      (.ok 0, ⟨[⟨"home", "/", "Home", 7⟩], []⟩)) ∧
    Page.delete "about" ⟨[⟨"home", "/", "Home", 7⟩], []⟩ =
      (.ok 0, ⟨[⟨"home", "/", "Home", 7⟩], []⟩) :=
  not_found_signaling_asymmetry "about" ⟨[⟨"home", "/", "Home", 7⟩], []⟩
    (by simp)

/-- C4 counterexample: `update` does not overwrite `page_name`.  Updating
the page "a" with a payload whose `page_name` is "b" leaves the stored
`page_name` at "a": the subsequent `read_one` returns the original
`page_name`, not the payload's, refuting "overwrites all three writable
fields". -/
theorem update_keeps_page_name_counterexample :
    Page.read_one "a"
        (Page.update "a" ⟨"b", "u2", "t2"⟩ ⟨[⟨"a", "u", "t", 5⟩], []⟩).2 =
      .ok ⟨"a", "u2", "t2", 5⟩ ∧
    Page.read_one "a"
        (Page.update "a" ⟨"b", "u2", "t2"⟩ ⟨[⟨"a", "u", "t", 5⟩], []⟩).2 ≠
      .ok ⟨"b", "u2", "t2", 5⟩ := by
  refine ⟨rfl, ?_⟩
  intro h
  have h2 : Except.ok (⟨"a", "u2", "t2", 5⟩ : Page) =
      Except.ok (⟨"b", "u2", "t2", 5⟩ : Page) :=
    (rfl : Page.read_one "a"
        (Page.update "a" ⟨"b", "u2", "t2"⟩ ⟨[⟨"a", "u", "t", 5⟩], []⟩).2 =
      Except.ok (⟨"a", "u2", "t2", 5⟩ : Page)).symm.trans h
  simp at h2

/-- C4 amended: on an existing id, `update(id, p2)` unconditionally
overwrites `page_url` and `page_title`, while the primary-key column
`page_name` is skipped by the derived changeset and `time_created` is not
part of the payload; a subsequent `read_one(id)` hence returns p2's
`page_url` and `page_title` with the original `page_name` and
`time_created` (exactly p2's fields when `p2.page_name = id`), and the
update preserves `page_name` and `time_created` of every stored row. -/
theorem update_overwrites_url_title_only
    (db : DB) (id : String) (p2 : MutPage) (q : Page)
    (h : Page.read_one id db = .ok q) :
    Page.read_one id (Page.update id p2 db).2 =
      .ok ⟨q.page_name, p2.page_url, p2.page_title, q.time_created⟩ ∧
    q.page_name = id ∧
    ((Page.update id p2 db).2).pages.map (fun r => (r.page_name, r.time_created)) =
      db.pages.map (fun r => (r.page_name, r.time_created)) := by
  have hf : db.pages.find? (fun r => r.page_name == id) = some q := by
    unfold Page.read_one at h
    rcases hfind : db.pages.find? (fun r => r.page_name == id) with _ | r
    · rw [hfind] at h
      cases h
    · rw [hfind] at h
      cases h
      exact hfind
  have hq_name : (q.page_name == id) = true :=
    List.find?_some (p := fun r : Page => r.page_name == id) hf
  have hpred : ((fun r : Page => r.page_name == id) ∘
      (fun r => if r.page_name == id then p2.applyChangeset r else r)) =
        fun r : Page => r.page_name == id := by
    funext r
    show ((if r.page_name == id then p2.applyChangeset r else r).page_name == id) =
      (r.page_name == id)
    split <;> rfl
  refine ⟨?_, by simpa using hq_name, ?_⟩
  · have hq' : q.page_name = id := by simpa using hq_name
    have h2 : ((Page.update id p2 db).2).pages.find?
        (fun r => r.page_name == id) = some (p2.applyChangeset q) := by
      show ((db.pages.map fun r =>
          if r.page_name == id then p2.applyChangeset r else r).find?
            (fun r => r.page_name == id)) = _
      rw [List.find?_map, hpred, hf]
      simp [hq']
    unfold Page.read_one
    rw [h2]
    rfl
  · show ((db.pages.map fun r =>
        if r.page_name == id then p2.applyChangeset r else r).map
          (fun r => (r.page_name, r.time_created))) = _
    rw [List.map_map]
    apply List.map_congr_left
    intro r hr
    simp only [Function.comp]
    split <;> rfl

/-- Witness for C4's amended theorem: the spec's concrete scenario. -/
theorem update_overwrites_url_title_only_witness :
    Page.read_one "home"
        (Page.update "home" ⟨"home", "/index", "Home Page"⟩
          ⟨[⟨"home", "/", "Home", 7⟩], []⟩).2 =
      .ok ⟨"home", "/index", "Home Page", 7⟩ ∧
    ("home" : String) = "home" ∧
    ((Page.update "home" ⟨"home", "/index", "Home Page"⟩
        ⟨[⟨"home", "/", "Home", 7⟩], []⟩).2).pages.map
          (fun r => (r.page_name, r.time_created)) =
      ([⟨"home", "/", "Home", 7⟩] : List Page).map
        (fun r => (r.page_name, r.time_created)) := by
  have h := update_overwrites_url_title_only
    ⟨[⟨"home", "/", "Home", 7⟩], []⟩ "home" ⟨"home", "/index", "Home Page"⟩
    ⟨"home", "/", "Home", 7⟩ rfl
  exact h

/-- Filtering the inner join on the page name commutes with filtering the
`pages` side first. -/
lemma join_filter_eq (pages : List Page) (modules : List Module) (id : String) :
    ((pages.flatMap fun p =>
        (modules.filter fun m => m.page_name == p.page_name).map
          fun m => (p, m)).filter fun pm => pm.1.page_name == id) =
    ((pages.filter fun p => p.page_name == id).flatMap fun p =>
        (modules.filter fun m => m.page_name == p.page_name).map
          fun m => (p, m)) := by
  induction pages with
  | nil => rfl
  | cons a l ih =>
    rw [List.flatMap_cons, List.filter_append, ih]
    by_cases ha : (a.page_name == id) = true
    · have hcomp : ((fun pm : Page × Module => pm.1.page_name == id) ∘
          (fun m : Module => (a, m))) = fun m : Module => true :=
        funext fun m => ha
      rw [List.filter_map, hcomp, List.filter_true,
        List.filter_cons_of_pos (p := fun q : Page => q.page_name == id)
          (a := a) (l := l) ha,
        List.flatMap_cons]
    · have hfalse : (a.page_name == id) = false := by
        simpa using ha
      have hcomp : ((fun pm : Page × Module => pm.1.page_name == id) ∘
          (fun m : Module => (a, m))) = fun m : Module => false :=
        funext fun m => hfalse
      rw [List.filter_map, hcomp, List.filter_false,
        List.filter_cons_of_neg (p := fun q : Page => q.page_name == id)
          (a := a) (l := l) ha]
      simp

/-- With pairwise distinct page names, filtering `pages` on the name of a
member page yields exactly that page. -/
lemma filter_name_eq_singleton (pages : List Page) (id : String) (p : Page)
    (hn : (pages.map Page.page_name).Nodup) (hp : p ∈ pages)
    (hid : p.page_name = id) :
    pages.filter (fun q => q.page_name == id) = [p] := by
  induction pages with
  | nil => cases hp
  | cons a l ih =>
    rw [List.map_cons, List.nodup_cons] at hn
    obtain ⟨hna, hnl⟩ := hn
    rcases List.mem_cons.mp hp with rfl | hpl
    · rw [List.filter_cons_of_pos (p := fun q : Page => q.page_name == id)
        (a := p) (l := l) (by simp [hid])]
      have hnil : ∀ q ∈ l, ¬(q.page_name == id) = true := by
        intro q hq
        simp only [beq_iff_eq]
        intro hqe
        refine hna ?_
        rw [hid, ← hqe]
        exact List.mem_map_of_mem Page.page_name hq
      rw [List.filter_eq_nil_iff.mpr hnil]
    · have ha : ¬(a.page_name == id) = true := by
        simp only [beq_iff_eq]
        intro hae
        refine hna ?_
        rw [hae, ← hid]
        exact List.mem_map_of_mem Page.page_name hpl
      rw [List.filter_cons_of_neg (p := fun q : Page => q.page_name == id)
        (a := a) (l := l) ha]
      exact ih hnl hpl

/-- C5: `read_one_join_on` is an inner join: when no page carries the id
the result is empty (never a tuple with a null right side), and when a
page `p` carries it the result is one tuple per module related to it, all
sharing `p`'s field values (N related modules yield exactly N tuples). -/
theorem read_one_join_on_fanout (id : String) (db : DB)
    (hn : (db.pages.map Page.page_name).Nodup) :
    ((∀ q ∈ db.pages, q.page_name ≠ id) →
      Page.read_one_join_on id db = .ok []) ∧
    (∀ p ∈ db.pages, p.page_name = id →
      Page.read_one_join_on id db =
        .ok ((db.modules.filter fun m => m.page_name == id).map
          fun m => (p, m)) ∧
      ∀ l, Page.read_one_join_on id db = .ok l →
        l.length = (db.modules.filter fun m => m.page_name == id).length ∧
        ∀ pr ∈ l, pr.1 = p) := by
  have hkey := join_filter_eq db.pages db.modules id
  constructor
  · intro habs
    have hnil : db.pages.filter (fun q => q.page_name == id) = [] :=
      List.filter_eq_nil_iff.mpr (fun q hq => by simpa using habs q hq)
    simp only [Page.read_one_join_on]
    rw [hkey, hnil]
    rfl
  · intro p hp hid
    have hsing : db.pages.filter (fun q => q.page_name == id) = [p] :=
      filter_name_eq_singleton db.pages id p hn hp hid
    have hres : Page.read_one_join_on id db =
        .ok ((db.modules.filter fun m => m.page_name == id).map
          fun m => (p, m)) := by
      simp only [Page.read_one_join_on]
      rw [hkey, hsing, List.flatMap_cons]
      simp [hid]
    refine ⟨hres, ?_⟩
    intro l hl
    rw [hres] at hl
    have hl' : ((db.modules.filter fun m => m.page_name == id).map
        fun m => (p, m)) = l := by
      injection hl
    subst hl'
    constructor
    · rw [List.length_map]
    · intro pr hpr
      rcases List.mem_map.mp hpr with ⟨m, hm, rfl⟩
      rfl

/-- Witness for C5: a page with two modules and an unrelated module. -/
theorem read_one_join_on_fanout_witness :
    ((∀ q ∈ ([⟨"home", "/", "Home", 7⟩] : List Page), q.page_name ≠ "home") →
      Page.read_one_join_on "home"
        ⟨[⟨"home", "/", "Home", 7⟩],
         [⟨"A", "home", "ca"⟩, ⟨"B", "home", "cb"⟩, ⟨"X", "other", "cx"⟩]⟩ =
        .ok []) ∧
    (∀ p ∈ ([⟨"home", "/", "Home", 7⟩] : List Page), p.page_name = "home" →
      Page.read_one_join_on "home"
        ⟨[⟨"home", "/", "Home", 7⟩],
         [⟨"A", "home", "ca"⟩, ⟨"B", "home", "cb"⟩, ⟨"X", "other", "cx"⟩]⟩ =
        .ok ((([⟨"A", "home", "ca"⟩, ⟨"B", "home", "cb"⟩,
            ⟨"X", "other", "cx"⟩] : List Module).filter
              fun m => m.page_name == "home").map fun m => (p, m)) ∧
      ∀ l, Page.read_one_join_on "home"
          ⟨[⟨"home", "/", "Home", 7⟩],
           [⟨"A", "home", "ca"⟩, ⟨"B", "home", "cb"⟩, ⟨"X", "other", "cx"⟩]⟩ =
          .ok l →
        l.length = ((([⟨"A", "home", "ca"⟩, ⟨"B", "home", "cb"⟩,
            ⟨"X", "other", "cx"⟩] : List Module).filter
              fun m => m.page_name == "home")).length ∧
        ∀ pr ∈ l, pr.1 = p) :=
  read_one_join_on_fanout "home"
    ⟨[⟨"home", "/", "Home", 7⟩],
     [⟨"A", "home", "ca"⟩, ⟨"B", "home", "cb"⟩, ⟨"X", "other", "cx"⟩]⟩
    (by simp)

end RustCms
